import Mathlib

/-
Verification of the locale-identity resolution and translation layer of
pabal-web-mcp: a shallow embedding of src/constants/unified-locales.ts and
src/utils/locale-converter.ts, with theorems settling the spec claims about
round-trip integrity, injectivity, supported-set derivation, alias collapse,
reverse-lookup failure policy, pivot conversion and bulk conversion.

TypeScript Record literals become association lists in declaration order;
Record indexing becomes an association-list lookup; a string-or-null value
becomes an Option String; a thrown Error becomes an Except String result.
-/

set_option maxRecDepth 8000
set_option maxHeartbeats 1000000

namespace UnifiedLocales

/-- Unified locale codes used across the application (the closed catalog). -/
def UNIFIED_LOCALES : List String :=
  ["af",
  "am",
  "ar",
  "az-AZ",
  "be",
  "bg-BG",
  "bn-BD",
  "ca-ES",
  "cs-CZ",
  "da-DK",
  "de-DE",
  "el-GR",
  "en-AU",
  "en-CA",
  "en-GB",
  "en-IN",
  "en-SG",
  "en-US",
  "en-ZA",
  "es-419",
  "es-ES",
  "es-US",
  "et-EE",
  "eu-ES",
  "fa",
  "fa-AE",
  "fa-AF",
  "fa-IR",
  "fi-FI",
  "fil",
  "fr-CA",
  "fr-FR",
  "gl-ES",
  "gu",
  "he-IL",
  "hi-IN",
  "hr-HR",
  "hu-HU",
  "hy-AM",
  "id-ID",
  "is-IS",
  "it-IT",
  "ja-JP",
  "ka-GE",
  "kk",
  "km-KH",
  "kn-IN",
  "ko-KR",
  "ky-KG",
  "lo-LA",
  "lt-LT",
  "lv-LV",
  "mk-MK",
  "ml-IN",
  "mn-MN",
  "mr-IN",
  "ms",
  "ms-MY",
  "my-MM",
  "ne-NP",
  "nl-NL",
  "no-NO",
  "pa",
  "pl-PL",
  "pt-BR",
  "pt-PT",
  "rm",
  "ro-RO",
  "ru-RU",
  "si-LK",
  "sk-SK",
  "sl-SI",
  "sq",
  "sr-RS",
  "sv-SE",
  "sw",
  "ta-IN",
  "te-IN",
  "th-TH",
  "tr-TR",
  "uk-UA",
  "ur",
  "vi-VN",
  "zh-HK",
  "zh-Hans",
  "zh-Hant",
  "zu"]

/-- Unified locale to App Store Connect locale mapping. -/
def UNIFIED_TO_APP_STORE : List (String × Option String) :=
  [("af", none),
  ("am", none),
  ("ar", some "ar-SA"),
  ("az-AZ", none),
  ("be", none),
  ("bg-BG", none),
  ("bn-BD", none),
  ("ca-ES", some "ca"),
  ("cs-CZ", some "cs"),
  ("da-DK", some "da"),
  ("de-DE", some "de-DE"),
  ("el-GR", some "el"),
  ("en-AU", some "en-AU"),
  ("en-CA", some "en-CA"),
  ("en-GB", some "en-GB"),
  ("en-IN", none),
  ("en-SG", none),
  ("en-US", some "en-US"),
  ("en-ZA", none),
  ("es-419", some "es-MX"),
  ("es-ES", some "es-ES"),
  ("es-US", none),
  ("et-EE", none),
  ("eu-ES", none),
  ("fa", none),
  ("fa-AE", none),
  ("fa-AF", none),
  ("fa-IR", none),
  ("fi-FI", some "fi"),
  ("fil", none),
  ("fr-CA", some "fr-CA"),
  ("fr-FR", some "fr-FR"),
  ("gl-ES", none),
  ("gu", none),
  ("he-IL", some "he"),
  ("hi-IN", some "hi"),
  ("hr-HR", some "hr"),
  ("hu-HU", some "hu"),
  ("hy-AM", none),
  ("id-ID", some "id"),
  ("is-IS", none),
  ("it-IT", some "it"),
  ("ja-JP", some "ja"),
  ("ka-GE", none),
  ("kk", none),
  ("km-KH", none),
  ("kn-IN", none),
  ("ko-KR", some "ko"),
  ("ky-KG", none),
  ("lo-LA", none),
  ("lt-LT", none),
  ("lv-LV", none),
  ("mk-MK", none),
  ("ml-IN", none),
  ("mn-MN", none),
  ("mr-IN", none),
  ("ms", none),
  ("ms-MY", some "ms"),
  ("my-MM", none),
  ("ne-NP", none),
  ("nl-NL", some "nl-NL"),
  ("no-NO", some "no"),
  ("pa", none),
  ("pl-PL", some "pl"),
  ("pt-BR", some "pt-BR"),
  ("pt-PT", some "pt-PT"),
  ("rm", none),
  ("ro-RO", some "ro"),
  ("ru-RU", some "ru"),
  ("si-LK", none),
  ("sk-SK", some "sk"),
  ("sl-SI", none),
  ("sq", none),
  ("sr-RS", none),
  ("sv-SE", some "sv"),
  ("sw", none),
  ("ta-IN", none),
  ("te-IN", none),
  ("th-TH", some "th"),
  ("tr-TR", some "tr"),
  ("uk-UA", some "uk"),
  ("ur", none),
  ("vi-VN", some "vi"),
  ("zh-HK", none),
  ("zh-Hans", some "zh-Hans"),
  ("zh-Hant", some "zh-Hant"),
  ("zu", none)]

/-- Unified locale to Google Play Console locale mapping. -/
def UNIFIED_TO_GOOGLE_PLAY : List (String × Option String) :=
  [("af", some "af"),
  ("am", some "am"),
  ("ar", some "ar"),
  ("az-AZ", some "az-AZ"),
  ("be", some "be"),
  ("bg-BG", some "bg"),
  ("bn-BD", some "bn-BD"),
  ("ca-ES", some "ca"),
  ("cs-CZ", some "cs-CZ"),
  ("da-DK", some "da-DK"),
  ("de-DE", some "de-DE"),
  ("el-GR", some "el-GR"),
  ("en-AU", some "en-AU"),
  ("en-CA", some "en-CA"),
  ("en-GB", some "en-GB"),
  ("en-IN", some "en-IN"),
  ("en-SG", some "en-SG"),
  ("en-US", some "en-US"),
  ("en-ZA", some "en-ZA"),
  ("es-419", some "es-419"),
  ("es-ES", some "es-ES"),
  ("es-US", some "es-US"),
  ("et-EE", some "et"),
  ("eu-ES", some "eu-ES"),
  ("fa", some "fa"),
  ("fa-AE", some "fa-AE"),
  ("fa-AF", some "fa-AF"),
  ("fa-IR", some "fa-IR"),
  ("fi-FI", some "fi-FI"),
  ("fil", some "fil"),
  ("fr-CA", some "fr-CA"),
  ("fr-FR", some "fr-FR"),
  ("gl-ES", some "gl-ES"),
  ("gu", some "gu"),
  ("he-IL", some "iw-IL"),
  ("hi-IN", some "hi-IN"),
  ("hr-HR", some "hr"),
  ("hu-HU", some "hu-HU"),
  ("hy-AM", some "hy-AM"),
  ("id-ID", some "id"),
  ("is-IS", some "is-IS"),
  ("it-IT", some "it-IT"),
  ("ja-JP", some "ja-JP"),
  ("ka-GE", some "ka-GE"),
  ("kk", some "kk"),
  ("km-KH", some "km-KH"),
  ("kn-IN", some "kn-IN"),
  ("ko-KR", some "ko-KR"),
  ("ky-KG", some "ky-KG"),
  ("lo-LA", some "lo-LA"),
  ("lt-LT", some "lt"),
  ("lv-LV", some "lv"),
  ("mk-MK", some "mk-MK"),
  ("ml-IN", some "ml-IN"),
  ("mn-MN", some "mn-MN"),
  ("mr-IN", some "mr-IN"),
  ("ms", some "ms"),
  ("ms-MY", some "ms-MY"),
  ("my-MM", some "my-MM"),
  ("ne-NP", some "ne-NP"),
  ("nl-NL", some "nl-NL"),
  ("no-NO", some "no-NO"),
  ("pa", some "pa"),
  ("pl-PL", some "pl-PL"),
  ("pt-BR", some "pt-BR"),
  ("pt-PT", some "pt-PT"),
  ("rm", some "rm"),
  ("ro-RO", some "ro"),
  ("ru-RU", some "ru-RU"),
  ("si-LK", some "si-LK"),
  ("sk-SK", some "sk"),
  ("sl-SI", some "sl"),
  ("sq", some "sq"),
  ("sr-RS", some "sr"),
  ("sv-SE", some "sv-SE"),
  ("sw", some "sw"),
  ("ta-IN", some "ta-IN"),
  ("te-IN", some "te-IN"),
  ("th-TH", some "th"),
  ("tr-TR", some "tr-TR"),
  ("uk-UA", some "uk"),
  ("ur", some "ur"),
  ("vi-VN", some "vi"),
  ("zh-HK", some "zh-HK"),
  ("zh-Hans", some "zh-CN"),
  ("zh-Hant", some "zh-TW"),
  ("zu", some "zu")]

/-- App Store Connect locale to unified locale mapping (reverse table). -/
def APP_STORE_TO_UNIFIED : List (String × String) :=
  [("en-US", "en-US"),
  ("en-AU", "en-AU"),
  ("en-CA", "en-CA"),
  ("en-GB", "en-GB"),
  ("ko", "ko-KR"),
  ("ja", "ja-JP"),
  ("zh-Hans", "zh-Hans"),
  ("zh-Hant", "zh-Hant"),
  ("fr-FR", "fr-FR"),
  ("fr-CA", "fr-CA"),
  ("de-DE", "de-DE"),
  ("it", "it-IT"),
  ("es-ES", "es-ES"),
  ("es-MX", "es-419"),
  ("pt-BR", "pt-BR"),
  ("pt-PT", "pt-PT"),
  ("ru", "ru-RU"),
  ("ar-SA", "ar"),
  ("nl-NL", "nl-NL"),
  ("sv", "sv-SE"),
  ("da", "da-DK"),
  ("no", "no-NO"),
  ("fi", "fi-FI"),
  ("pl", "pl-PL"),
  ("tr", "tr-TR"),
  ("vi", "vi-VN"),
  ("th", "th-TH"),
  ("id", "id-ID"),
  ("ms", "ms-MY"),
  ("hi", "hi-IN"),
  ("cs", "cs-CZ"),
  ("sk", "sk-SK"),
  ("hu", "hu-HU"),
  ("ro", "ro-RO"),
  ("uk", "uk-UA"),
  ("he", "he-IL"),
  ("el", "el-GR"),
  ("ca", "ca-ES"),
  ("hr", "hr-HR")]

/-- Google Play Console locale to unified locale mapping (reverse table), including alias spellings. -/
def GOOGLE_PLAY_TO_UNIFIED : List (String × String) :=
  [("af", "af"),
  ("am", "am"),
  ("ar", "ar"),
  ("az-AZ", "az-AZ"),
  ("be", "be"),
  ("bg", "bg-BG"),
  ("bn-BD", "bn-BD"),
  ("ca", "ca-ES"),
  ("cs-CZ", "cs-CZ"),
  ("cs", "cs-CZ"),
  ("da-DK", "da-DK"),
  ("da", "da-DK"),
  ("de-DE", "de-DE"),
  ("de", "de-DE"),
  ("el-GR", "el-GR"),
  ("el", "el-GR"),
  ("en-AU", "en-AU"),
  ("en-CA", "en-CA"),
  ("en-GB", "en-GB"),
  ("en-IN", "en-IN"),
  ("en-SG", "en-SG"),
  ("en-US", "en-US"),
  ("en-ZA", "en-ZA"),
  ("es-419", "es-419"),
  ("es-ES", "es-ES"),
  ("es", "es-ES"),
  ("es-US", "es-US"),
  ("et", "et-EE"),
  ("et-EE", "et-EE"),
  ("eu-ES", "eu-ES"),
  ("fa", "fa"),
  ("fa-AE", "fa-AE"),
  ("fa-AF", "fa-AF"),
  ("fa-IR", "fa-IR"),
  ("fi-FI", "fi-FI"),
  ("fi", "fi-FI"),
  ("fil", "fil"),
  ("fr-FR", "fr-FR"),
  ("fr", "fr-FR"),
  ("fr-CA", "fr-CA"),
  ("gl-ES", "gl-ES"),
  ("gu", "gu"),
  ("iw-IL", "he-IL"),
  ("he-IL", "he-IL"),
  ("he", "he-IL"),
  ("hi-IN", "hi-IN"),
  ("hi", "hi-IN"),
  ("hr", "hr-HR"),
  ("hu-HU", "hu-HU"),
  ("hu", "hu-HU"),
  ("hy-AM", "hy-AM"),
  ("id", "id-ID"),
  ("in", "id-ID"),
  ("is-IS", "is-IS"),
  ("it-IT", "it-IT"),
  ("it", "it-IT"),
  ("ja-JP", "ja-JP"),
  ("ja", "ja-JP"),
  ("ka-GE", "ka-GE"),
  ("kk", "kk"),
  ("km-KH", "km-KH"),
  ("kn-IN", "kn-IN"),
  ("ko-KR", "ko-KR"),
  ("ko", "ko-KR"),
  ("ky-KG", "ky-KG"),
  ("lo-LA", "lo-LA"),
  ("lt", "lt-LT"),
  ("lt-LT", "lt-LT"),
  ("lv", "lv-LV"),
  ("lv-LV", "lv-LV"),
  ("mk-MK", "mk-MK"),
  ("ml-IN", "ml-IN"),
  ("mn-MN", "mn-MN"),
  ("mr-IN", "mr-IN"),
  ("ms", "ms"),
  ("ms-MY", "ms-MY"),
  ("my-MM", "my-MM"),
  ("ne-NP", "ne-NP"),
  ("nl-NL", "nl-NL"),
  ("nl", "nl-NL"),
  ("no-NO", "no-NO"),
  ("no", "no-NO"),
  ("pa", "pa"),
  ("pl-PL", "pl-PL"),
  ("pl", "pl-PL"),
  ("pt-BR", "pt-BR"),
  ("pt-PT", "pt-PT"),
  ("rm", "rm"),
  ("ro", "ro-RO"),
  ("ru-RU", "ru-RU"),
  ("ru", "ru-RU"),
  ("si-LK", "si-LK"),
  ("sk", "sk-SK"),
  ("sl-SI", "sl-SI"),
  ("sl", "sl-SI"),
  ("sq", "sq"),
  ("sr", "sr-RS"),
  ("sv-SE", "sv-SE"),
  ("sv", "sv-SE"),
  ("sw", "sw"),
  ("ta-IN", "ta-IN"),
  ("te-IN", "te-IN"),
  ("th", "th-TH"),
  ("tr-TR", "tr-TR"),
  ("tr", "tr-TR"),
  ("uk", "uk-UA"),
  ("ur", "ur"),
  ("vi", "vi-VN"),
  ("zh-HK", "zh-HK"),
  ("zh-CN", "zh-Hans"),
  ("zh-TW", "zh-Hant"),
  ("zu", "zu")]

/-- Default locale (for fallback), src/constants/unified-locales.ts. -/
def DEFAULT_LOCALE : String := "en-US"

/-- Indexing a TypeScript Record whose value type is string-or-null: the
association-list lookup, flattened so a stored null reads back as none. -/
def recordGet (t : List (String × Option String)) (k : String) : Option String :=
  (t.lookup k).join

/-- Locales supported by App Store Connect: the catalog filtered to entries
whose forward mapping is not null. -/
def APP_STORE_SUPPORTED_LOCALES : List String :=
  UNIFIED_LOCALES.filter (fun locale => (recordGet UNIFIED_TO_APP_STORE locale).isSome)

/-- Locales supported by Google Play Console: the catalog filtered to entries
whose forward mapping is not null. -/
def GOOGLE_PLAY_SUPPORTED_LOCALES : List String :=
  UNIFIED_LOCALES.filter (fun locale => (recordGet UNIFIED_TO_GOOGLE_PLAY locale).isSome)

/-- Locales supported by both platforms. -/
def COMMON_SUPPORTED_LOCALES : List String :=
  UNIFIED_LOCALES.filter (fun locale =>
    (recordGet UNIFIED_TO_APP_STORE locale).isSome &&
    (recordGet UNIFIED_TO_GOOGLE_PLAY locale).isSome)

/-- Throwing reverse lookup beside the tables (unified-locales.ts): resolves an
App Store code and throws on a falsy lookup result (absent key, or the
impossible empty string). -/
def appStoreToUnified (appStoreLocale : String) : Except String String :=
  match APP_STORE_TO_UNIFIED.lookup appStoreLocale with
  | some unified =>
    if unified = "" then Except.error ("Unknown App Store locale: " ++ appStoreLocale)
    else Except.ok unified
  | none => Except.error ("Unknown App Store locale: " ++ appStoreLocale)

/-- Throwing reverse lookup beside the tables (unified-locales.ts): resolves a
Google Play code and throws on a falsy lookup result. -/
def googlePlayToUnified (googlePlayLocale : String) : Except String String :=
  match GOOGLE_PLAY_TO_UNIFIED.lookup googlePlayLocale with
  | some unified =>
    if unified = "" then Except.error ("Unknown Google Play locale: " ++ googlePlayLocale)
    else Except.ok unified
  | none => Except.error ("Unknown Google Play locale: " ++ googlePlayLocale)

end UnifiedLocales

namespace LocaleConverter

open UnifiedLocales

/-- Convert unified locale to App Store Connect locale; none when the locale is
not supported by App Store (src/utils/locale-converter.ts). -/
def unifiedToAppStore (locale : String) : Option String :=
  recordGet UNIFIED_TO_APP_STORE locale

/-- Convert unified locale to Google Play Console locale; none when the locale
is not supported by Google Play. -/
def unifiedToGooglePlay (locale : String) : Option String :=
  recordGet UNIFIED_TO_GOOGLE_PLAY locale

/-- Convert unified locale to both platforms at once. -/
def unifiedToBothPlatforms (locale : String) : Option String × Option String :=
  (unifiedToAppStore locale, unifiedToGooglePlay locale)

/-- Facade reverse lookup: App Store code to unified locale, substituting the
default locale when the code is not recognized. -/
def appStoreToUnified (locale : String) : String :=
  (APP_STORE_TO_UNIFIED.lookup locale).getD DEFAULT_LOCALE

/-- Facade reverse lookup: Google Play code to unified locale, substituting the
default locale when the code is not recognized. -/
def googlePlayToUnified (locale : String) : String :=
  (GOOGLE_PLAY_TO_UNIFIED.lookup locale).getD DEFAULT_LOCALE

/-- Batch forward conversion to App Store codes: map the single-item
conversion, then keep only the non-null results. -/
def unifiedToAppStoreBatch (locales : List String) : List String :=
  (locales.map unifiedToAppStore).filterMap (fun o => o)

/-- Batch forward conversion to Google Play codes: map the single-item
conversion, then keep only the non-null results. -/
def unifiedToGooglePlayBatch (locales : List String) : List String :=
  (locales.map unifiedToGooglePlay).filterMap (fun o => o)

/-- Batch reverse conversion from App Store codes: map the single-item facade
conversion over every element. -/
def appStoreToUnifiedBatch (locales : List String) : List String :=
  locales.map appStoreToUnified

/-- Batch reverse conversion from Google Play codes: map the single-item facade
conversion over every element. -/
def googlePlayToUnifiedBatch (locales : List String) : List String :=
  locales.map googlePlayToUnified

/-- Cross-platform pivot: App Store code to Google Play code through the
unified locale (uses the facade reverse lookup). -/
def appStoreToGooglePlay (locale : String) : Option String :=
  unifiedToGooglePlay (appStoreToUnified locale)

/-- Cross-platform pivot: Google Play code to App Store code through the
unified locale (uses the facade reverse lookup). -/
def googlePlayToAppStore (locale : String) : Option String :=
  unifiedToAppStore (googlePlayToUnified locale)

/-- JavaScript object assignment on a key-ordered object: overwrite the value
in place when the key is present, otherwise append the entry at the end. -/
def objUpsert {T : Type} (m : List (String × T)) (k : String) (v : T) : List (String × T) :=
  if k ∈ m.map Prod.fst then m.map (fun r => if r.1 = k then (r.1, v) else r)
  else m ++ [(k, v)]

/-- Shared loop of the four object converters: walk the entries in order and,
when the key conversion yields a key, assign the unmodified value under it. -/
def convObjGo {T : Type} (f : String → Option String) :
    List (String × T) → List (String × T) → List (String × T)
  | acc, [] => acc
  | acc, r :: rest =>
    convObjGo f
      (match f r.1 with
        | some k => objUpsert acc k r.2
        | none => acc) rest

/-- Convert an object with unified locale keys to App Store locale keys,
dropping entries whose forward mapping is null. -/
def convertObjectToAppStore {T : Type} (data : List (String × T)) : List (String × T) :=
  convObjGo (fun locale => unifiedToAppStore locale) [] data

/-- Convert an object with unified locale keys to Google Play locale keys,
dropping entries whose forward mapping is null. -/
def convertObjectToGooglePlay {T : Type} (data : List (String × T)) : List (String × T) :=
  convObjGo (fun locale => unifiedToGooglePlay locale) [] data

/-- Convert an object with App Store locale keys to unified locale keys; every
entry is assigned, via the defaulting facade reverse lookup. -/
def convertObjectFromAppStore {T : Type} (data : List (String × T)) : List (String × T) :=
  convObjGo (fun locale => some (appStoreToUnified locale)) [] data

/-- Convert an object with Google Play locale keys to unified locale keys;
every entry is assigned, via the defaulting facade reverse lookup. -/
def convertObjectFromGooglePlay {T : Type} (data : List (String × T)) : List (String × T) :=
  convObjGo (fun locale => some (googlePlayToUnified locale)) [] data

end LocaleConverter


section Helpers

/-- A successful association-list lookup returns an entry of the list, keyed by
the searched key. -/
theorem lookup_mem {α β : Type} [BEq α] [LawfulBEq α] {l : List (α × β)} {k : α} {v : β} :
    l.lookup k = some v → (k, v) ∈ l := by
  induction l with
  | nil => intro h; simp [List.lookup] at h
  | cons a as ih =>
    intro h
    obtain ⟨k', v'⟩ := a
    rw [List.lookup] at h
    by_cases hk : k = k'
    · subst hk
      have hb : (k == k) = true := beq_self_eq_true k
      have hv : some v' = some v := by rw [hb] at h; exact h
      cases hv
      exact List.mem_cons_self _ _
    · have hb : (k == k') = false := beq_eq_false_iff_ne.mpr hk
      rw [hb] at h
      exact List.mem_cons_of_mem _ (ih h)

/-- Pairwise gives the relation, in one direction or the other, between any two
distinct members of a list. -/
theorem pairwise_mem_or {α : Type} {R : α → α → Prop} {l : List α} (h : l.Pairwise R) :
    ∀ a ∈ l, ∀ b ∈ l, a ≠ b → R a b ∨ R b a := by
  induction h with
  | nil => intro a ha; simp at ha
  | cons hx _ ih =>
    intro a ha b hb hne
    rcases List.mem_cons.mp ha with rfl | ha'
    · rcases List.mem_cons.mp hb with rfl | hb'
      · exact absurd rfl hne
      · exact Or.inl (hx _ hb')
    · rcases List.mem_cons.mp hb with rfl | hb'
      · exact Or.inr (hx _ ha')
      · exact ih a ha' b hb' hne

/-- A table whose keys are pairwise distinct assigns equal values to equal
keys: the reverse relation is a function. -/
theorem table_functional {β : Type} {l : List (String × β)}
    (hp : l.Pairwise (fun r s => r.1 ≠ s.1)) :
    ∀ r ∈ l, ∀ s ∈ l, r.1 = s.1 → r.2 = s.2 := by
  intro r hr s hs hk
  by_cases hrs : r = s
  · rw [hrs]
  · rcases pairwise_mem_or hp r hr s hs hrs with h | h
    · exact absurd hk h
    · exact absurd hk.symm h

/-- If distinct rows of a forward table never share a non-null value, the
derived access function is injective away from null. -/
theorem recordGet_inj {t : List (String × Option String)}
    (hp : t.Pairwise (fun r s => r.2 = s.2 → r.2 = none))
    {u1 u2 : String} (hne : u1 ≠ u2)
    (heq : UnifiedLocales.recordGet t u1 = UnifiedLocales.recordGet t u2) :
    UnifiedLocales.recordGet t u1 = none := by
  cases ho1 : UnifiedLocales.recordGet t u1 with
  | none => rfl
  | some p =>
    have ho2 : UnifiedLocales.recordGet t u2 = some p := by rw [← heq, ho1]
    have l1 : t.lookup u1 = some (some p) := Option.join_eq_some.mp ho1
    have l2 : t.lookup u2 = some (some p) := Option.join_eq_some.mp ho2
    have m1 : (u1, some p) ∈ t := lookup_mem l1
    have m2 : (u2, some p) ∈ t := lookup_mem l2
    have hne2 : ((u1, some p) : String × Option String) ≠ (u2, some p) := by
      intro hc
      exact hne (congrArg Prod.fst hc)
    rcases pairwise_mem_or hp _ m1 _ m2 hne2 with h | h
    · exact absurd (h rfl) (by simp)
    · exact absurd (h rfl) (by simp)

/-- Membership after a JavaScript-style assignment: an entry of the result was
already present or is the assigned pair. -/
theorem mem_objUpsert {T : Type} {m : List (String × T)} {k : String} {v : T} {e : String × T}
    (h : e ∈ LocaleConverter.objUpsert m k v) : e ∈ m ∨ e = (k, v) := by
  unfold LocaleConverter.objUpsert at h
  by_cases hc : k ∈ m.map Prod.fst
  · rw [if_pos hc] at h
    rcases List.mem_map.mp h with ⟨r, hr, hre⟩
    by_cases hk : r.1 = k
    · rw [if_pos hk] at hre
      right
      rw [← hre, hk]
    · rw [if_neg hk] at hre
      left
      rw [← hre]
      exact hr
  · rw [if_neg hc] at h
    rcases List.mem_append.mp h with h | h
    · exact Or.inl h
    · right
      simpa using h

/-- The assigned key is a key of the result of a JavaScript-style assignment. -/
theorem objUpsert_fst_self {T : Type} (m : List (String × T)) (k : String) (v : T) :
    k ∈ (LocaleConverter.objUpsert m k v).map Prod.fst := by
  unfold LocaleConverter.objUpsert
  by_cases hc : k ∈ m.map Prod.fst
  · rw [if_pos hc]
    rw [List.map_map]
    have : (Prod.fst ∘ fun r : String × T => if r.1 = k then (r.1, v) else r) = Prod.fst := by
      funext r
      by_cases hk : r.1 = k <;> simp [Function.comp, hk]
    rw [this]
    exact hc
  · rw [if_neg hc]
    rw [List.map_append]
    exact List.mem_append_right _ (by simp)

/-- Existing keys survive a JavaScript-style assignment. -/
theorem objUpsert_fst_mono {T : Type} {m : List (String × T)} {q : String}
    (k : String) (v : T) (h : q ∈ m.map Prod.fst) :
    q ∈ (LocaleConverter.objUpsert m k v).map Prod.fst := by
  unfold LocaleConverter.objUpsert
  by_cases hc : k ∈ m.map Prod.fst
  · rw [if_pos hc]
    rw [List.map_map]
    have : (Prod.fst ∘ fun r : String × T => if r.1 = k then (r.1, v) else r) = Prod.fst := by
      funext r
      by_cases hk : r.1 = k <;> simp [Function.comp, hk]
    rw [this]
    exact h
  · rw [if_neg hc]
    rw [List.map_append]
    exact List.mem_append_left _ h

/-- Every entry of the converter loop's output comes from the accumulator or
carries an unmodified input value under a converted input key. -/
theorem convObjGo_mem {T : Type} (f : String → Option String) :
    ∀ (data acc : List (String × T)), ∀ e ∈ LocaleConverter.convObjGo f acc data,
      e ∈ acc ∨ (e.2 ∈ data.map Prod.snd ∧ ∃ u ∈ data.map Prod.fst, f u = some e.1) := by
  intro data
  induction data with
  | nil =>
    intro acc e h
    exact Or.inl (by simpa [LocaleConverter.convObjGo] using h)
  | cons r rest ih =>
    intro acc e h
    rw [LocaleConverter.convObjGo] at h
    rcases ih _ e h with h' | ⟨hv, u, hu, hf⟩
    · cases hfr : f r.1 with
      | none =>
        rw [hfr] at h'
        exact Or.inl h'
      | some k =>
        rw [hfr] at h'
        rcases mem_objUpsert h' with h'' | he
        · exact Or.inl h''
        · right
          refine ⟨by rw [he]; simp, r.1, by simp, ?_⟩
          rw [hfr, he]
    · right
      exact ⟨by simp [hv], u, by simp [hu], hf⟩

/-- Keys of the accumulator survive the converter loop. -/
theorem convObjGo_fst_mono {T : Type} (f : String → Option String) :
    ∀ (data acc : List (String × T)) {q : String}, q ∈ acc.map Prod.fst →
      q ∈ (LocaleConverter.convObjGo f acc data).map Prod.fst := by
  intro data
  induction data with
  | nil =>
    intro acc q h
    simpa [LocaleConverter.convObjGo] using h
  | cons r rest ih =>
    intro acc q h
    rw [LocaleConverter.convObjGo]
    cases hfr : f r.1 with
    | none => exact ih _ h
    | some k => exact ih _ (objUpsert_fst_mono k r.2 h)

/-- Every input entry whose key conversion succeeds contributes its converted
key to the converter loop's output. -/
theorem convObjGo_covers {T : Type} (f : String → Option String) :
    ∀ (data acc : List (String × T)) (u : String) (v : T) (p : String),
      (u, v) ∈ data → f u = some p →
      p ∈ (LocaleConverter.convObjGo f acc data).map Prod.fst := by
  intro data
  induction data with
  | nil =>
    intro acc u v p h
    simp at h
  | cons r rest ih =>
    intro acc u v p hm hf
    rw [LocaleConverter.convObjGo]
    rcases List.mem_cons.mp hm with he | hm'
    · subst he
      have hr1 : f (u, v).1 = some p := hf
      rw [hr1]
      exact convObjGo_fst_mono f rest _ (objUpsert_fst_self acc p (u, v).2)
    · cases hfr : f r.1 with
      | none => exact ih _ u v p hm' hf
      | some k => exact ih _ u v p hm' hf

end Helpers

/-- Claim C1: round-trip integrity holds for both stores — for every unified
locale in the catalog whose forward mapping is non-null, looking the resulting
platform code up in that store's reverse table yields exactly the original
unified locale. -/
theorem C1_round_trip_integrity :
    ∀ u ∈ UnifiedLocales.UNIFIED_LOCALES,
      (∀ p, LocaleConverter.unifiedToAppStore u = some p →
        UnifiedLocales.APP_STORE_TO_UNIFIED.lookup p = some u) ∧
      (∀ p, LocaleConverter.unifiedToGooglePlay u = some p →
        UnifiedLocales.GOOGLE_PLAY_TO_UNIFIED.lookup p = some u) := by
  have hAS : ∀ u ∈ UnifiedLocales.UNIFIED_LOCALES,
      (LocaleConverter.unifiedToAppStore u).all
        (fun p => UnifiedLocales.APP_STORE_TO_UNIFIED.lookup p == some u) = true := by decide
  have hGP : ∀ u ∈ UnifiedLocales.UNIFIED_LOCALES,
      (LocaleConverter.unifiedToGooglePlay u).all
        (fun p => UnifiedLocales.GOOGLE_PLAY_TO_UNIFIED.lookup p == some u) = true := by decide
  intro u hu
  constructor
  · intro p hp
    have h := hAS u hu
    rw [hp] at h
    exact eq_of_beq h
  · intro p hp
    have h := hGP u hu
    rw [hp] at h
    exact eq_of_beq h

/-- Witness for C1 at the region-proxy rows: es-419 maps to es-MX on the App
Store and back, and zh-Hans maps to zh-CN on Google Play and back. -/
theorem C1_round_trip_integrity_witness :
    ("es-419" ∈ UnifiedLocales.UNIFIED_LOCALES ∧
      LocaleConverter.unifiedToAppStore "es-419" = some "es-MX" ∧
      "zh-Hans" ∈ UnifiedLocales.UNIFIED_LOCALES ∧
      LocaleConverter.unifiedToGooglePlay "zh-Hans" = some "zh-CN") ∧
    UnifiedLocales.APP_STORE_TO_UNIFIED.lookup "es-MX" = some "es-419" ∧
    UnifiedLocales.GOOGLE_PLAY_TO_UNIFIED.lookup "zh-CN" = some "zh-Hans" :=
  ⟨⟨by decide, by decide, by decide, by decide⟩,
   (C1_round_trip_integrity "es-419" (by decide)).1 "es-MX" (by decide),
   (C1_round_trip_integrity "zh-Hans" (by decide)).2 "zh-CN" (by decide)⟩

/-- Claim C2: each forward table is injective on non-null results — distinct
unified locales never share a non-null platform code within one store. -/
theorem C2_forward_injectivity :
    ∀ u1 ∈ UnifiedLocales.UNIFIED_LOCALES, ∀ u2 ∈ UnifiedLocales.UNIFIED_LOCALES, u1 ≠ u2 →
      (LocaleConverter.unifiedToAppStore u1 = LocaleConverter.unifiedToAppStore u2 →
        LocaleConverter.unifiedToAppStore u1 = none) ∧
      (LocaleConverter.unifiedToGooglePlay u1 = LocaleConverter.unifiedToGooglePlay u2 →
        LocaleConverter.unifiedToGooglePlay u1 = none) := by
  have hAS : UnifiedLocales.UNIFIED_TO_APP_STORE.Pairwise
      (fun r s => r.2 = s.2 → r.2 = none) := by decide
  have hGP : UnifiedLocales.UNIFIED_TO_GOOGLE_PLAY.Pairwise
      (fun r s => r.2 = s.2 → r.2 = none) := by decide
  intro u1 _ u2 _ hne
  exact ⟨fun heq => recordGet_inj hAS hne heq, fun heq => recordGet_inj hGP hne heq⟩

/-- Witness for C2: ms and af are distinct catalog locales that agree on their
App Store image only because both are unsupported there. -/
theorem C2_forward_injectivity_witness :
    ("ms" ∈ UnifiedLocales.UNIFIED_LOCALES ∧ "af" ∈ UnifiedLocales.UNIFIED_LOCALES ∧
      ("ms" : String) ≠ "af" ∧
      LocaleConverter.unifiedToAppStore "ms" = LocaleConverter.unifiedToAppStore "af") ∧
    LocaleConverter.unifiedToAppStore "ms" = none :=
  ⟨⟨by decide, by decide, by decide, by decide⟩,
   (C2_forward_injectivity "ms" (by decide) "af" (by decide) (by decide)).1 (by decide)⟩

/-- Claim C6: the common supported set is exactly the intersection of the two
per-store supported sets, and each per-store supported set is exactly the
catalog members with a non-null forward mapping. -/
theorem C6_supported_set_identity :
    ∀ u : String,
      (u ∈ UnifiedLocales.COMMON_SUPPORTED_LOCALES ↔
        u ∈ UnifiedLocales.APP_STORE_SUPPORTED_LOCALES ∧
        u ∈ UnifiedLocales.GOOGLE_PLAY_SUPPORTED_LOCALES) ∧
      (u ∈ UnifiedLocales.APP_STORE_SUPPORTED_LOCALES ↔
        u ∈ UnifiedLocales.UNIFIED_LOCALES ∧ LocaleConverter.unifiedToAppStore u ≠ none) ∧
      (u ∈ UnifiedLocales.GOOGLE_PLAY_SUPPORTED_LOCALES ↔
        u ∈ UnifiedLocales.UNIFIED_LOCALES ∧ LocaleConverter.unifiedToGooglePlay u ≠ none) := by
  intro u
  simp only [UnifiedLocales.COMMON_SUPPORTED_LOCALES,
    UnifiedLocales.APP_STORE_SUPPORTED_LOCALES, UnifiedLocales.GOOGLE_PLAY_SUPPORTED_LOCALES,
    LocaleConverter.unifiedToAppStore, LocaleConverter.unifiedToGooglePlay,
    List.mem_filter, Bool.and_eq_true, Option.isSome_iff_ne_none]
  tauto

/-- Claim C7: a unified locale with a null App Store forward mapping (en-IN)
returns null and is excluded from the supported set, and membership in each
store's supported set coincides with a non-null forward mapping. -/
theorem C7_unsupported_locale_exclusion :
    LocaleConverter.unifiedToAppStore "en-IN" = none ∧
    "en-IN" ∉ UnifiedLocales.APP_STORE_SUPPORTED_LOCALES ∧
    ∀ u ∈ UnifiedLocales.UNIFIED_LOCALES,
      (LocaleConverter.unifiedToAppStore u = none →
        u ∉ UnifiedLocales.APP_STORE_SUPPORTED_LOCALES) ∧
      (LocaleConverter.unifiedToAppStore u ≠ none →
        u ∈ UnifiedLocales.APP_STORE_SUPPORTED_LOCALES) ∧
      (LocaleConverter.unifiedToGooglePlay u = none →
        u ∉ UnifiedLocales.GOOGLE_PLAY_SUPPORTED_LOCALES) ∧
      (LocaleConverter.unifiedToGooglePlay u ≠ none →
        u ∈ UnifiedLocales.GOOGLE_PLAY_SUPPORTED_LOCALES) := by
  refine ⟨by decide, by decide, ?_⟩
  intro u hu
  refine ⟨fun h hmem => ?_, fun h => ?_, fun h hmem => ?_, fun h => ?_⟩
  · have hp := (List.mem_filter.mp hmem).2
    simp only [Option.isSome_iff_ne_none] at hp
    exact hp h
  · exact List.mem_filter.mpr ⟨hu, Option.isSome_iff_ne_none.mpr h⟩
  · have hp := (List.mem_filter.mp hmem).2
    simp only [Option.isSome_iff_ne_none] at hp
    exact hp h
  · exact List.mem_filter.mpr ⟨hu, Option.isSome_iff_ne_none.mpr h⟩

/-- Witness for C7 at en-SG, another Google-Play-only locale. -/
theorem C7_unsupported_locale_exclusion_witness :
    ("en-SG" ∈ UnifiedLocales.UNIFIED_LOCALES ∧
      LocaleConverter.unifiedToAppStore "en-SG" = none) ∧
    "en-SG" ∉ UnifiedLocales.APP_STORE_SUPPORTED_LOCALES :=
  ⟨⟨by decide, by decide⟩,
   (C7_unsupported_locale_exclusion.2.2 "en-SG" (by decide)).1 (by decide)⟩

/-- Claim C9 (implicit): the Google Play forward mapping is non-null on the
whole catalog, so the Google Play supported set is the whole catalog and the
common supported set equals the App Store supported set. -/
theorem C9_google_play_forward_total :
    (∀ u ∈ UnifiedLocales.UNIFIED_LOCALES, LocaleConverter.unifiedToGooglePlay u ≠ none) ∧
    UnifiedLocales.GOOGLE_PLAY_SUPPORTED_LOCALES = UnifiedLocales.UNIFIED_LOCALES ∧
    UnifiedLocales.COMMON_SUPPORTED_LOCALES = UnifiedLocales.APP_STORE_SUPPORTED_LOCALES := by
  exact ⟨by decide, by decide, by decide⟩

/-- Witness for C9 at zh-HK, an App-Store-unsupported catalog locale that
Google Play still carries. -/
theorem C9_google_play_forward_total_witness :
    "zh-HK" ∈ UnifiedLocales.UNIFIED_LOCALES ∧
    LocaleConverter.unifiedToGooglePlay "zh-HK" ≠ none :=
  ⟨by decide, C9_google_play_forward_total.1 "zh-HK" (by decide)⟩

/-- Counterexample for C3 as stated: the conversion-facade reverse lookups do
not fail on a code absent from the reverse tables — they return the
substituted default unified code en-US. -/
theorem C3_counterexample :
    UnifiedLocales.APP_STORE_TO_UNIFIED.lookup "xx-XX" = none ∧
    UnifiedLocales.GOOGLE_PLAY_TO_UNIFIED.lookup "xx-XX" = none ∧
    LocaleConverter.appStoreToUnified "xx-XX" = "en-US" ∧
    LocaleConverter.googlePlayToUnified "xx-XX" = "en-US" :=
  ⟨by decide, by decide, by decide, by decide⟩

/-- Claim C3 as amended: on a code absent from the relevant reverse table the
table-side reverse lookups fail with a typed error naming the offending code,
while the facade reverse lookups instead return the default locale en-US; the
failure policy is not uniform across the two exposed implementations. -/
theorem C3_unknown_code_policy :
    ∀ p : String,
      (UnifiedLocales.APP_STORE_TO_UNIFIED.lookup p = none →
        UnifiedLocales.appStoreToUnified p =
          Except.error ("Unknown App Store locale: " ++ p) ∧
        LocaleConverter.appStoreToUnified p = UnifiedLocales.DEFAULT_LOCALE) ∧
      (UnifiedLocales.GOOGLE_PLAY_TO_UNIFIED.lookup p = none →
        UnifiedLocales.googlePlayToUnified p =
          Except.error ("Unknown Google Play locale: " ++ p) ∧
        LocaleConverter.googlePlayToUnified p = UnifiedLocales.DEFAULT_LOCALE) := by
  intro p
  constructor
  · intro h
    constructor
    · rw [UnifiedLocales.appStoreToUnified, h]
    · rw [LocaleConverter.appStoreToUnified, h]
      rfl
  · intro h
    constructor
    · rw [UnifiedLocales.googlePlayToUnified, h]
    · rw [LocaleConverter.googlePlayToUnified, h]
      rfl

/-- Witness for the amended C3 at the unrecognized code xx-XX. -/
theorem C3_unknown_code_policy_witness :
    UnifiedLocales.appStoreToUnified "xx-XX" =
      Except.error ("Unknown App Store locale: " ++ "xx-XX") ∧
    LocaleConverter.appStoreToUnified "xx-XX" = UnifiedLocales.DEFAULT_LOCALE :=
  (C3_unknown_code_policy "xx-XX").1 (by decide)

/-- Claim C4: the cross-platform pivots equal the composition through the
unified space; on a source code recognized by its own reverse table the pivot
is the target forward mapping of the resolved unified locale, and is null
exactly when that forward mapping is null. The pivots are total functions of
the source code, so they never raise on recognized codes. -/
theorem C4_cross_platform_pivot :
    ∀ p : String,
      LocaleConverter.appStoreToGooglePlay p =
        LocaleConverter.unifiedToGooglePlay (LocaleConverter.appStoreToUnified p) ∧
      LocaleConverter.googlePlayToAppStore p =
        LocaleConverter.unifiedToAppStore (LocaleConverter.googlePlayToUnified p) ∧
      (∀ u, UnifiedLocales.APP_STORE_TO_UNIFIED.lookup p = some u →
        LocaleConverter.appStoreToGooglePlay p = LocaleConverter.unifiedToGooglePlay u ∧
        (LocaleConverter.appStoreToGooglePlay p = none ↔
          LocaleConverter.unifiedToGooglePlay u = none)) ∧
      (∀ u, UnifiedLocales.GOOGLE_PLAY_TO_UNIFIED.lookup p = some u →
        LocaleConverter.googlePlayToAppStore p = LocaleConverter.unifiedToAppStore u ∧
        (LocaleConverter.googlePlayToAppStore p = none ↔
          LocaleConverter.unifiedToAppStore u = none)) := by
  intro p
  refine ⟨rfl, rfl, fun u h => ?_, fun u h => ?_⟩
  · have hres : LocaleConverter.appStoreToUnified p = u := by
      rw [LocaleConverter.appStoreToUnified, h]
      rfl
    constructor
    · rw [LocaleConverter.appStoreToGooglePlay, hres]
    · rw [LocaleConverter.appStoreToGooglePlay, hres]
  · have hres : LocaleConverter.googlePlayToUnified p = u := by
      rw [LocaleConverter.googlePlayToUnified, h]
      rfl
    constructor
    · rw [LocaleConverter.googlePlayToAppStore, hres]
    · rw [LocaleConverter.googlePlayToAppStore, hres]

/-- Witness for C4: the App Store script-variant code zh-Hans pivots to the
Google Play regional code zh-CN, and the Google-Play-only code en-IN pivots to
null because the App Store lacks the language. -/
theorem C4_cross_platform_pivot_witness :
    (UnifiedLocales.APP_STORE_TO_UNIFIED.lookup "zh-Hans" = some "zh-Hans" ∧
      LocaleConverter.appStoreToGooglePlay "zh-Hans" =
        LocaleConverter.unifiedToGooglePlay "zh-Hans" ∧
      (LocaleConverter.appStoreToGooglePlay "zh-Hans" = none ↔
        LocaleConverter.unifiedToGooglePlay "zh-Hans" = none)) ∧
    (UnifiedLocales.GOOGLE_PLAY_TO_UNIFIED.lookup "en-IN" = some "en-IN" ∧
      LocaleConverter.googlePlayToAppStore "en-IN" =
        LocaleConverter.unifiedToAppStore "en-IN" ∧
      (LocaleConverter.googlePlayToAppStore "en-IN" = none ↔
        LocaleConverter.unifiedToAppStore "en-IN" = none)) :=
  ⟨⟨by decide, (C4_cross_platform_pivot "zh-Hans").2.2.1 "zh-Hans" (by decide)⟩,
   ⟨by decide, (C4_cross_platform_pivot "en-IN").2.2.2 "en-IN" (by decide)⟩⟩

/-- Claim C8: alias spellings collapse to one unified locale — Google Play id
and in both resolve to id-ID, and iw-IL, he-IL and he all resolve to he-IL —
and each reverse table is a function: rows with equal platform codes carry
equal unified codes. -/
theorem C8_alias_collapse :
    (UnifiedLocales.GOOGLE_PLAY_TO_UNIFIED.lookup "id" = some "id-ID" ∧
      UnifiedLocales.GOOGLE_PLAY_TO_UNIFIED.lookup "in" = some "id-ID" ∧
      UnifiedLocales.GOOGLE_PLAY_TO_UNIFIED.lookup "iw-IL" = some "he-IL" ∧
      UnifiedLocales.GOOGLE_PLAY_TO_UNIFIED.lookup "he-IL" = some "he-IL" ∧
      UnifiedLocales.GOOGLE_PLAY_TO_UNIFIED.lookup "he" = some "he-IL") ∧
    (∀ r ∈ UnifiedLocales.GOOGLE_PLAY_TO_UNIFIED, ∀ s ∈ UnifiedLocales.GOOGLE_PLAY_TO_UNIFIED,
      r.1 = s.1 → r.2 = s.2) ∧
    (∀ r ∈ UnifiedLocales.APP_STORE_TO_UNIFIED, ∀ s ∈ UnifiedLocales.APP_STORE_TO_UNIFIED,
      r.1 = s.1 → r.2 = s.2) := by
  have hGP : UnifiedLocales.GOOGLE_PLAY_TO_UNIFIED.Pairwise (fun r s => r.1 ≠ s.1) := by decide
  have hAS : UnifiedLocales.APP_STORE_TO_UNIFIED.Pairwise (fun r s => r.1 ≠ s.1) := by decide
  exact ⟨⟨by decide, by decide, by decide, by decide, by decide⟩,
    table_functional hGP, table_functional hAS⟩

/-- Witness for C8 at the Indonesian alias rows of the Google Play reverse
table. -/
theorem C8_alias_collapse_witness :
    (("id", "id-ID") ∈ UnifiedLocales.GOOGLE_PLAY_TO_UNIFIED ∧
      ("in", "id-ID") ∈ UnifiedLocales.GOOGLE_PLAY_TO_UNIFIED) ∧
    ("id", "id-ID").2 = ("id", "id-ID").2 :=
  ⟨⟨by decide, by decide⟩,
   C8_alias_collapse.2.1 ("id", "id-ID") (by decide) ("id", "id-ID") (by decide) (by decide)⟩

/-- Claim C10 (implicit): the two exposed reverse-lookup implementations agree
on every recognized platform code, and differ only on absent codes, where the
facade returns the default locale and the table-side implementation fails. -/
theorem C10_reverse_implementations_agree :
    ∀ p : String,
      (∀ u, UnifiedLocales.APP_STORE_TO_UNIFIED.lookup p = some u →
        UnifiedLocales.appStoreToUnified p = Except.ok u ∧
        LocaleConverter.appStoreToUnified p = u) ∧
      (∀ u, UnifiedLocales.GOOGLE_PLAY_TO_UNIFIED.lookup p = some u →
        UnifiedLocales.googlePlayToUnified p = Except.ok u ∧
        LocaleConverter.googlePlayToUnified p = u) ∧
      (UnifiedLocales.APP_STORE_TO_UNIFIED.lookup p = none →
        UnifiedLocales.appStoreToUnified p =
          Except.error ("Unknown App Store locale: " ++ p) ∧
        LocaleConverter.appStoreToUnified p = UnifiedLocales.DEFAULT_LOCALE) ∧
      (UnifiedLocales.GOOGLE_PLAY_TO_UNIFIED.lookup p = none →
        UnifiedLocales.googlePlayToUnified p =
          Except.error ("Unknown Google Play locale: " ++ p) ∧
        LocaleConverter.googlePlayToUnified p = UnifiedLocales.DEFAULT_LOCALE) := by
  have hAS : ∀ r ∈ UnifiedLocales.APP_STORE_TO_UNIFIED, r.2 ≠ "" := by decide
  have hGP : ∀ r ∈ UnifiedLocales.GOOGLE_PLAY_TO_UNIFIED, r.2 ≠ "" := by decide
  intro p
  refine ⟨fun u h => ?_, fun u h => ?_, fun h => ?_, fun h => ?_⟩
  · have hne : u ≠ "" := hAS _ (lookup_mem h)
    constructor
    · rw [UnifiedLocales.appStoreToUnified, h]
      exact if_neg hne
    · rw [LocaleConverter.appStoreToUnified, h]
      rfl
  · have hne : u ≠ "" := hGP _ (lookup_mem h)
    constructor
    · rw [UnifiedLocales.googlePlayToUnified, h]
      exact if_neg hne
    · rw [LocaleConverter.googlePlayToUnified, h]
      rfl
  · constructor
    · rw [UnifiedLocales.appStoreToUnified, h]
    · rw [LocaleConverter.appStoreToUnified, h]
      rfl
  · constructor
    · rw [UnifiedLocales.googlePlayToUnified, h]
    · rw [LocaleConverter.googlePlayToUnified, h]
      rfl

/-- Witness for C10 at the recognized region-proxy code es-MX and the
recognized Google Play code zh-CN. -/
theorem C10_reverse_implementations_agree_witness :
    (UnifiedLocales.APP_STORE_TO_UNIFIED.lookup "es-MX" = some "es-419" ∧
      UnifiedLocales.appStoreToUnified "es-MX" = Except.ok "es-419" ∧
      LocaleConverter.appStoreToUnified "es-MX" = "es-419") ∧
    (UnifiedLocales.GOOGLE_PLAY_TO_UNIFIED.lookup "zh-CN" = some "zh-Hans" ∧
      UnifiedLocales.googlePlayToUnified "zh-CN" = Except.ok "zh-Hans" ∧
      LocaleConverter.googlePlayToUnified "zh-CN" = "zh-Hans") :=
  ⟨⟨by decide, (C10_reverse_implementations_agree "es-MX").1 "es-419" (by decide)⟩,
   ⟨by decide, (C10_reverse_implementations_agree "zh-CN").2.1 "zh-Hans" (by decide)⟩⟩

/-- Counterexample for C5 as stated: in the From-direction object conversion an
entry whose key has no valid mapping in the target code space is not dropped —
the unrecognized App Store key xx-XX is kept under the default key en-US. -/
theorem C5_counterexample :
    UnifiedLocales.APP_STORE_TO_UNIFIED.lookup "xx-XX" = none ∧
    LocaleConverter.convertObjectFromAppStore [("xx-XX", (0 : Nat))] = [("en-US", 0)] :=
  ⟨by decide, by decide⟩

/-- Claim C5 as amended: every object conversion rewrites only keys — each
result entry carries an unmodified input value under a converted input key.
The To-variants keep exactly the mapped entries, dropping keys whose forward
mapping is null; the From-variants never drop an entry, sending every input
key (unrecognized platform keys included, via the defaulting facade) to a key
of the result. The batch To-variants apply the single-item conversion
elementwise and filter null results preserving order, and the batch
From-variants apply it elementwise with no filtering, preserving length. -/
theorem C5_keyed_conversion {T : Type} :
    (∀ data : List (String × T), ∀ e ∈ LocaleConverter.convertObjectToAppStore data,
      e.2 ∈ data.map Prod.snd ∧
        ∃ u ∈ data.map Prod.fst, LocaleConverter.unifiedToAppStore u = some e.1) ∧
    (∀ data : List (String × T), ∀ e ∈ LocaleConverter.convertObjectToGooglePlay data,
      e.2 ∈ data.map Prod.snd ∧
        ∃ u ∈ data.map Prod.fst, LocaleConverter.unifiedToGooglePlay u = some e.1) ∧
    (∀ data : List (String × T), ∀ u v, (u, v) ∈ data →
      ∀ p, LocaleConverter.unifiedToAppStore u = some p →
        p ∈ (LocaleConverter.convertObjectToAppStore data).map Prod.fst) ∧
    (∀ data : List (String × T), ∀ u v, (u, v) ∈ data →
      ∀ p, LocaleConverter.unifiedToGooglePlay u = some p →
        p ∈ (LocaleConverter.convertObjectToGooglePlay data).map Prod.fst) ∧
    (∀ data : List (String × T), ∀ e ∈ LocaleConverter.convertObjectFromAppStore data,
      e.2 ∈ data.map Prod.snd ∧
        ∃ q ∈ data.map Prod.fst, LocaleConverter.appStoreToUnified q = e.1) ∧
    (∀ data : List (String × T), ∀ e ∈ LocaleConverter.convertObjectFromGooglePlay data,
      e.2 ∈ data.map Prod.snd ∧
        ∃ q ∈ data.map Prod.fst, LocaleConverter.googlePlayToUnified q = e.1) ∧
    (∀ data : List (String × T), ∀ q v, (q, v) ∈ data →
      LocaleConverter.appStoreToUnified q ∈
        (LocaleConverter.convertObjectFromAppStore data).map Prod.fst) ∧
    (∀ data : List (String × T), ∀ q v, (q, v) ∈ data →
      LocaleConverter.googlePlayToUnified q ∈
        (LocaleConverter.convertObjectFromGooglePlay data).map Prod.fst) ∧
    (∀ locales : List String,
      LocaleConverter.unifiedToAppStoreBatch locales =
        locales.filterMap LocaleConverter.unifiedToAppStore ∧
      LocaleConverter.unifiedToGooglePlayBatch locales =
        locales.filterMap LocaleConverter.unifiedToGooglePlay ∧
      LocaleConverter.appStoreToUnifiedBatch locales =
        locales.map LocaleConverter.appStoreToUnified ∧
      LocaleConverter.googlePlayToUnifiedBatch locales =
        locales.map LocaleConverter.googlePlayToUnified ∧
      (LocaleConverter.appStoreToUnifiedBatch locales).length = locales.length ∧
      (LocaleConverter.googlePlayToUnifiedBatch locales).length = locales.length) := by
  refine ⟨?_, ?_, ?_, ?_, ?_, ?_, ?_, ?_, ?_⟩
  · intro data e he
    rcases convObjGo_mem (fun locale => LocaleConverter.unifiedToAppStore locale)
        data [] e he with h | h
    · exact absurd h (List.not_mem_nil e)
    · exact h
  · intro data e he
    rcases convObjGo_mem (fun locale => LocaleConverter.unifiedToGooglePlay locale)
        data [] e he with h | h
    · exact absurd h (List.not_mem_nil e)
    · exact h
  · intro data u v hm p hp
    exact convObjGo_covers (fun locale => LocaleConverter.unifiedToAppStore locale)
      data [] u v p hm hp
  · intro data u v hm p hp
    exact convObjGo_covers (fun locale => LocaleConverter.unifiedToGooglePlay locale)
      data [] u v p hm hp
  · intro data e he
    rcases convObjGo_mem (fun locale => some (LocaleConverter.appStoreToUnified locale))
        data [] e he with h | ⟨hv, u, hu, hf⟩
    · exact absurd h (List.not_mem_nil e)
    · exact ⟨hv, u, hu, Option.some.inj hf⟩
  · intro data e he
    rcases convObjGo_mem (fun locale => some (LocaleConverter.googlePlayToUnified locale))
        data [] e he with h | ⟨hv, u, hu, hf⟩
    · exact absurd h (List.not_mem_nil e)
    · exact ⟨hv, u, hu, Option.some.inj hf⟩
  · intro data q v hm
    exact convObjGo_covers (fun locale => some (LocaleConverter.appStoreToUnified locale))
      data [] q v _ hm rfl
  · intro data q v hm
    exact convObjGo_covers (fun locale => some (LocaleConverter.googlePlayToUnified locale))
      data [] q v _ hm rfl
  · intro locales
    refine ⟨?_, ?_, rfl, rfl, List.length_map _ _, List.length_map _ _⟩
    · rw [LocaleConverter.unifiedToAppStoreBatch, List.filterMap_map]
      rfl
    · rw [LocaleConverter.unifiedToGooglePlayBatch, List.filterMap_map]
      rfl

/-- Witness for the amended C5: the supported input key ar yields the result
key ar-SA in the To-direction object conversion. -/
theorem C5_keyed_conversion_witness :
    (("ar", (0 : Nat)) ∈ [("ar", (0 : Nat))] ∧
      LocaleConverter.unifiedToAppStore "ar" = some "ar-SA") ∧
    "ar-SA" ∈ (LocaleConverter.convertObjectToAppStore [("ar", (0 : Nat))]).map Prod.fst :=
  ⟨⟨by decide, by decide⟩,
   (C5_keyed_conversion (T := Nat)).2.2.1 [("ar", 0)] "ar" 0 (by decide) "ar-SA" (by decide)⟩
